import Mathlib

/-!
Shallow embedding of `src/lib/constructs/dify-services/api.ts` from the
`dify-self-hosted-on-aws` repository.  The file declares two CDK constructs:
`ApiService` (the primary multi-container service) and `ConsoleService`
(an administrative single-container service).  Both are one linear pass of
resource construction, so each is embedded as a pure function from its props
record to a record of every resource the constructor declares (task
definition, containers, generated secrets, IAM policy statements, network
rules, load-balancer routing rules, service settings).
-/

/-- A secrets-manager secret object.  `passwordLength` is `some n` exactly for
secrets created in this scope with `generateSecretString` (the construct
`EncryptionSecret`); secrets passed in through props come from other scopes. -/
structure SecretObj where
  name : String
  passwordLength : Option Nat := none
deriving DecidableEq

/-- `ecs.Secret` — a reference into a secrets-manager secret (optionally a
single JSON field of it) or an SSM parameter.  Mirrors the two factory
functions used in the source: `fromSecretsManager` and `fromSsmParameter`. -/
inductive EcsSecret where
  | fromSecretsManager (secret : SecretObj) (field : Option String)
  | fromSsmParameter (param : String)
deriving DecidableEq

/-- A value placed in a container variable map: either a literal string (the
`environment` map) or a secret reference (the `secrets` map). -/
inductive VarValue where
  | literal (s : String)
  | secret (r : EcsSecret)
deriving DecidableEq

/-- `true` exactly when the value is a secret-reference object. -/
def isSecretRef : VarValue → Bool
  | VarValue.literal _ => false
  | VarValue.secret _ => true

/-- `ecs.ContainerDependencyCondition`. -/
inductive ContainerDependencyCondition where
  | START
  | COMPLETE
  | SUCCESS
  | HEALTHY
deriving DecidableEq

structure MountPoint where
  containerPath : String
  sourceVolume : String
  readOnly : Bool
deriving DecidableEq

structure ContainerDependency where
  container : String
  condition : ContainerDependencyCondition
deriving DecidableEq

structure PortMapping where
  containerPort : Nat
deriving DecidableEq

/-- `ecs.ContainerImage` factory calls used in the source. -/
inductive ContainerImage where
  | fromRegistry (name : String)
  | fromAsset (path : String) (buildArgs : List (String × String))
  | fromEcrRepository (repo : String) (tag : String)
deriving DecidableEq

structure HealthCheck where
  command : List String
  intervalSeconds : Nat
  startPeriodSeconds : Nat
  timeoutSeconds : Nat
  retries : Nat
deriving DecidableEq

/-- One container definition of a task definition.  `mountPoints` and
`containerDependencies` collect the `addMountPoints` / `addContainerDependencies`
calls made on the container right after `addContainer` in the source. -/
structure ContainerDef where
  name : String
  image : ContainerImage
  environment : List (String × String) := []
  secrets : List (String × VarValue) := []
  portMappings : List PortMapping := []
  essential : Bool := true
  healthCheck : Option HealthCheck := none
  mountPoints : List MountPoint := []
  containerDependencies : List ContainerDependency := []
  entryPoint : Option (List String) := none
  command : Option (List String) := none
deriving DecidableEq

structure TaskDef where
  cpu : Nat
  memoryLimitMiB : Nat
  cpuArchitecture : String
  volumes : List String := []
  containers : List ContainerDef := []
deriving DecidableEq

/-- Settings of the `ecs.FargateService` call.  `desiredCount = none` means the
property was omitted (provider default applies). -/
structure ServiceDef where
  capacityProviderStrategies : List (String × Nat)
  enableExecuteCommand : Bool
  minHealthyPercent : Option Nat := none
  desiredCount : Option Nat := none
deriving DecidableEq

/-- An IAM policy statement added to the task role. -/
structure PolicyStatement where
  actions : List String
  resources : List String
deriving DecidableEq

/-- A grant on the storage bucket (`storageBucket.grantReadWrite(...)`). -/
inductive S3Grant where
  | readWrite (grantee : String)
deriving DecidableEq

/-- A security-group rule opened by the constructor.  The target strings name
the props collaborator whose default port is addressed; both constructors allow
traffic from the service to the target's default port, one phrased as
`service.connections.allowToDefaultPort(target)` and the other as
`target.connections.allowDefaultPortFrom(service)`. -/
inductive NetworkRule where
  | allowToDefaultPort (target : String)
  | allowDefaultPortFrom (target : String)
deriving DecidableEq

/-- A routing rule registered on the shared load balancer via
`alb.addEcsService(id, service, port, healthCheckPath, paths)`. -/
structure AlbRule where
  id : String
  port : Nat
  healthCheckPath : String
  paths : List String
deriving DecidableEq

/-- The `Postgres` collaborator construct (fields used by this file). -/
structure Postgres where
  databaseName : String
  pgVectorDatabaseName : String
  secret : SecretObj
deriving DecidableEq

/-- The `Redis` collaborator construct (fields used by this file). -/
structure Redis where
  endpoint : String
  port : Nat
  secret : SecretObj
  brokerUrl : String
deriving DecidableEq

/-- The storage bucket collaborator (`IBucket` plus its stack region). -/
structure Bucket where
  bucketName : String
  region : String
deriving DecidableEq

/-- The load-balancer collaborator (`IAlb`). -/
structure Alb where
  url : String
deriving DecidableEq

/-- `ApiServiceProps` from the source. -/
structure ApiServiceProps where
  cluster : String
  alb : Alb
  postgres : Postgres
  redis : Redis
  storageBucket : Bucket
  imageTag : String
  sandboxImageTag : String
  allowAnySyscalls : Bool
  debug : Option Bool := none
deriving DecidableEq

/-- The field names of the `ApiServiceProps` interface, in declaration order. -/
def apiServicePropsFields : List String :=
  ["cluster", "alb", "postgres", "redis", "storageBucket",
   "imageTag", "sandboxImageTag", "allowAnySyscalls", "debug"]

/-- Modelled from the spec: the shape of `EnvironmentProps`'
`additionalEnvironmentVariables` (its defining file `environment-props` is not
among the provided sources).  The spec describes it as "an open map of extra
environment/secret overrides" supplied by the caller; the secret side can only
hold secret references (the `ecs.Secret` type), mirroring the source typing. -/
structure AdditionalEnvironmentVariables where
  envVars : List (String × String) := []
  secretVars : List (String × EcsSecret) := []
deriving DecidableEq

/-- `ConsoleServiceProps` from the source. -/
structure ConsoleServiceProps where
  cluster : String
  alb : Alb
  postgres : Postgres
  redis : Redis
  storageBucket : Bucket
  imageTag : String
  customRepository : Option String := none
  additionalEnvironmentVariables : AdditionalEnvironmentVariables
deriving DecidableEq

/-- The field names of the `ConsoleServiceProps` interface, in declaration
order. -/
def consoleServicePropsFields : List String :=
  ["cluster", "alb", "postgres", "redis", "storageBucket",
   "imageTag", "customRepository", "additionalEnvironmentVariables"]

/-- Modelled from the spec: `getAdditionalEnvironmentVariables` from
`./environment-variables` (not among the provided sources).  Per the spec the
assembler "accepts an open-ended override map merged into environment/secret
definitions"; the helper yields the caller's plain environment entries. -/
def getAdditionalEnvironmentVariables
    (vars : AdditionalEnvironmentVariables) : List (String × String) :=
  vars.envVars

/-- Modelled from the spec: `getAdditionalSecretVariables` from
`./environment-variables` (not among the provided sources).  Per the spec it
contributes the caller's secret-reference entries to the `secrets` map. -/
def getAdditionalSecretVariables
    (vars : AdditionalEnvironmentVariables) : List (String × VarValue) :=
  vars.secretVars.map (fun kr => (kr.1, VarValue.secret kr.2))

/-- JavaScript object-literal insertion: assigning a key that already exists
replaces its value in place; a new key is appended at the end. -/
def objInsert {α : Type} : List (String × α) → String → α → List (String × α)
  | [], k, v => [(k, v)]
  | e :: rest, k, v =>
    if e.1 = k then (k, v) :: rest else e :: objInsert rest k v

/-- JavaScript object-spread semantics: `\x7b ...m, ...add \x7d` inserts the
entries of `add` into `m` one by one, so a key occurring in both ends up with
the value from `add` (override wins). -/
def objSpread {α : Type} (m add : List (String × α)) : List (String × α) :=
  add.foldl (fun acc e => objInsert acc e.1 e.2) m

/-- The secret created by `new Secret(this, 'EncryptionSecret',
\x7b generateSecretString: \x7b passwordLength: 42 \x7d \x7d)`. -/
def encryptionSecret : SecretObj :=
  { name := "EncryptionSecret", passwordLength := some 42 }

/-- The `ALLOWED_SYSCALLS` value:
`Array(457).fill(0).map((_, i) => i).join(',')`. -/
def allowedSyscallsValue : String :=
  String.intercalate ","
    (((List.replicate 457 (0 : Nat)).mapIdx (fun i _ => i)).map (fun n => toString n))

/-- The `PYTHON_LIB_PATH` value of the sandbox container. -/
def pythonLibPathValue : String :=
  String.intercalate ","
    ["/usr/local/lib/python3.10",
     "/usr/lib/python3.10",
     "/usr/lib/python3",
     "/usr/lib/x86_64-linux-gnu",
     "/etc/ssl/certs/ca-certificates.crt",
     "/etc/nsswitch.conf",
     "/etc/hosts",
     "/etc/resolv.conf",
     "/run/systemd/resolve/stub-resolv.conf",
     "/run/resolvconf/resolv.conf"]

/-- Everything the `ApiService` constructor declares. -/
structure ApiServiceResult where
  taskDefinition : TaskDef
  generatedSecrets : List SecretObj
  bucketGrants : List S3Grant
  taskRolePolicies : List PolicyStatement
  service : ServiceDef
  networkRules : List NetworkRule
  albRules : List AlbRule
deriving DecidableEq

/-- Everything the `ConsoleService` constructor declares. -/
structure ConsoleServiceResult where
  taskDefinition : TaskDef
  generatedSecrets : List SecretObj
  bucketGrants : List S3Grant
  taskRolePolicies : List PolicyStatement
  service : ServiceDef
  networkRules : List NetworkRule
  albRules : List AlbRule
deriving DecidableEq

/-- The `ApiService` constructor, translated line by line from the source. -/
def apiService (props : ApiServiceProps) : ApiServiceResult :=
  let debug := props.debug.getD false
  let port := 5001
  let volumeName := "sandbox"
  let postgresSecrets : List (String × VarValue) :=
    [("DB_USERNAME", VarValue.secret (EcsSecret.fromSecretsManager props.postgres.secret (some "username"))),
     ("DB_HOST", VarValue.secret (EcsSecret.fromSecretsManager props.postgres.secret (some "host"))),
     ("DB_PORT", VarValue.secret (EcsSecret.fromSecretsManager props.postgres.secret (some "port"))),
     ("DB_PASSWORD", VarValue.secret (EcsSecret.fromSecretsManager props.postgres.secret (some "password"))),
     ("PGVECTOR_USER", VarValue.secret (EcsSecret.fromSecretsManager props.postgres.secret (some "username"))),
     ("PGVECTOR_HOST", VarValue.secret (EcsSecret.fromSecretsManager props.postgres.secret (some "host"))),
     ("PGVECTOR_PORT", VarValue.secret (EcsSecret.fromSecretsManager props.postgres.secret (some "port"))),
     ("PGVECTOR_PASSWORD", VarValue.secret (EcsSecret.fromSecretsManager props.postgres.secret (some "password"))),
     ("REDIS_PASSWORD", VarValue.secret (EcsSecret.fromSecretsManager props.redis.secret none)),
     ("CELERY_BROKER_URL", VarValue.secret (EcsSecret.fromSsmParameter props.redis.brokerUrl))]
  let mainContainer : ContainerDef :=
    { name := "Main"
      image := ContainerImage.fromRegistry ("langgenius/dify-api:" ++ props.imageTag)
      environment :=
        [("MODE", "api"),
         ("LOG_LEVEL", if debug then "DEBUG" else "ERROR"),
         ("DEBUG", if debug then "true" else "false"),
         ("CONSOLE_WEB_URL", props.alb.url),
         ("CONSOLE_API_URL", props.alb.url),
         ("SERVICE_API_URL", props.alb.url),
         ("APP_WEB_URL", props.alb.url),
         ("SQLALCHEMY_POOL_PRE_PING", "True"),
         ("REDIS_HOST", props.redis.endpoint),
         ("REDIS_PORT", toString props.redis.port),
         ("REDIS_USE_SSL", "true"),
         ("REDIS_DB", "0"),
         ("WEB_API_CORS_ALLOW_ORIGINS", "*"),
         ("CONSOLE_CORS_ALLOW_ORIGINS", "*"),
         ("STORAGE_TYPE", "s3"),
         ("S3_BUCKET_NAME", props.storageBucket.bucketName),
         ("S3_REGION", props.storageBucket.region),
         ("DB_DATABASE", props.postgres.databaseName),
         ("VECTOR_STORE", "pgvector"),
         ("PGVECTOR_DATABASE", props.postgres.pgVectorDatabaseName),
         ("CODE_EXECUTION_ENDPOINT", "http://localhost:8194"),
         ("PLUGIN_DAEMON_URL", "http://localhost:5002")]
      portMappings := [{ containerPort := port }]
      secrets :=
        postgresSecrets ++
        [("SECRET_KEY", VarValue.secret (EcsSecret.fromSecretsManager encryptionSecret none)),
         ("CODE_EXECUTION_API_KEY", VarValue.secret (EcsSecret.fromSecretsManager encryptionSecret none)),
         ("INNER_API_KEY_FOR_PLUGIN", VarValue.secret (EcsSecret.fromSecretsManager encryptionSecret none)),
         ("PLUGIN_API_KEY", VarValue.secret (EcsSecret.fromSecretsManager encryptionSecret none))]
      healthCheck := some
        { command := ["CMD-SHELL", "curl -f http://localhost:" ++ toString port ++ "/health || exit 1"]
          intervalSeconds := 15
          startPeriodSeconds := 30
          timeoutSeconds := 5
          retries := 5 } }
  let workerContainer : ContainerDef :=
    { name := "Worker"
      image := ContainerImage.fromRegistry ("langgenius/dify-api:" ++ props.imageTag)
      environment :=
        [("MODE", "worker"),
         ("LOG_LEVEL", if debug then "DEBUG" else "ERROR"),
         ("DEBUG", if debug then "true" else "false"),
         ("MIGRATION_ENABLED", "true"),
         ("SQLALCHEMY_POOL_PRE_PING", "True"),
         ("REDIS_HOST", props.redis.endpoint),
         ("REDIS_PORT", toString props.redis.port),
         ("REDIS_USE_SSL", "true"),
         ("REDIS_DB", "0"),
         ("STORAGE_TYPE", "s3"),
         ("S3_BUCKET_NAME", props.storageBucket.bucketName),
         ("S3_REGION", props.storageBucket.region),
         ("DB_DATABASE", props.postgres.databaseName),
         ("VECTOR_STORE", "pgvector"),
         ("PGVECTOR_DATABASE", props.postgres.pgVectorDatabaseName),
         ("PLUGIN_API_URL", "http://localhost:5002")]
      secrets :=
        postgresSecrets ++
        [("SECRET_KEY", VarValue.secret (EcsSecret.fromSecretsManager encryptionSecret none)),
         ("PLUGIN_API_KEY", VarValue.secret (EcsSecret.fromSecretsManager encryptionSecret none))] }
  let sandboxFileContainer : ContainerDef :=
    { name := "SandboxFileMount"
      image := ContainerImage.fromAsset "docker/sandbox" []
      essential := false
      mountPoints :=
        [{ containerPath := "/dependencies", sourceVolume := volumeName, readOnly := false }] }
  let sandboxContainer : ContainerDef :=
    { name := "Sandbox"
      image := ContainerImage.fromRegistry ("langgenius/dify-sandbox:" ++ props.sandboxImageTag)
      environment :=
        [("GIN_MODE", "release"),
         ("WORKER_TIMEOUT", "15"),
         ("ENABLE_NETWORK", "true")] ++
        (if props.allowAnySyscalls then [("ALLOWED_SYSCALLS", allowedSyscallsValue)] else []) ++
        [("PYTHON_LIB_PATH", pythonLibPathValue)]
      portMappings := [{ containerPort := 8194 }]
      secrets :=
        [("API_KEY", VarValue.secret (EcsSecret.fromSecretsManager encryptionSecret none))]
      mountPoints :=
        [{ containerPath := "/dependencies", sourceVolume := volumeName, readOnly := true }]
      containerDependencies :=
        [{ container := "SandboxFileMount", condition := ContainerDependencyCondition.COMPLETE }] }
  let pluginDaemonContainer : ContainerDef :=
    { name := "PluginDaemon"
      image := ContainerImage.fromRegistry "langgenius/dify-plugin-daemon:0.0.1-local"
      environment :=
        [("REDIS_HOST", props.redis.endpoint),
         ("REDIS_PORT", toString props.redis.port),
         ("REDIS_USE_SSL", "true"),
         ("REDIS_DB", "0"),
         ("VECTOR_STORE", "pgvector"),
         ("PGVECTOR_DATABASE", props.postgres.pgVectorDatabaseName),
         ("CODE_EXECUTION_ENDPOINT", "http://localhost:8194"),
         ("DB_DATABASE", "dify_plugin"),
         ("SERVER_PORT", "5002"),
         ("PLUGIN_STORAGE_TYPE", "local"),
         ("PLUGIN_STORAGE_OSS_BUCKET", props.storageBucket.bucketName),
         ("MAX_PLUGIN_PACKAGE_SIZE", "52428800"),
         ("DIFY_INNER_API_URL", "http://localhost:5001"),
         ("PLUGIN_WORKING_PATH", "/app/storage/cwd"),
         ("FORCE_VERIFYING_SIGNATURE", "true")]
      portMappings := [{ containerPort := 5002 }]
      secrets :=
        postgresSecrets ++
        [("SECRET_KEY", VarValue.secret (EcsSecret.fromSecretsManager encryptionSecret none)),
         ("CODE_EXECUTION_API_KEY", VarValue.secret (EcsSecret.fromSecretsManager encryptionSecret none)),
         ("DIFY_INNER_API_KEY", VarValue.secret (EcsSecret.fromSecretsManager encryptionSecret none)),
         ("SERVER_KEY", VarValue.secret (EcsSecret.fromSecretsManager encryptionSecret none))] }
  let externalKnowledgeContainer : ContainerDef :=
    { name := "ExternalKnowledgeBaseAPI"
      image := ContainerImage.fromAsset "docker/external-knowledge-api"
        [("DIFY_VERSION", props.sandboxImageTag)]
      environment :=
        [("BEARER_TOKEN", "dummy-key"),
         ("BEDROCK_REGION", "us-west-2")]
      portMappings := [{ containerPort := 8000 }] }
  let paths := ["/console/api", "/api", "/v1", "/files"]
  { taskDefinition :=
      { cpu := 1024
        memoryLimitMiB := 2048
        cpuArchitecture := "X86_64"
        volumes := [volumeName]
        containers :=
          [mainContainer, workerContainer, sandboxFileContainer, sandboxContainer,
           pluginDaemonContainer, externalKnowledgeContainer] }
    generatedSecrets := [encryptionSecret]
    bucketGrants := [S3Grant.readWrite "taskRole"]
    taskRolePolicies :=
      [{ actions :=
           ["bedrock:InvokeModel", "bedrock:InvokeModelWithResponseStream",
            "bedrock:Rerank", "bedrock:Retrieve"]
         resources := ["*"] }]
    service :=
      { capacityProviderStrategies := [("FARGATE", 0), ("FARGATE_SPOT", 1)]
        enableExecuteCommand := true }
    networkRules :=
      [NetworkRule.allowToDefaultPort "postgres", NetworkRule.allowToDefaultPort "redis"]
    albRules :=
      [{ id := "Api", port := port, healthCheckPath := "/health"
         paths := paths ++ paths.map (fun p => p ++ "/*") }] }

/-- The fixed environment entries of the console Main container (the object
literal before the spread of the additional variables). -/
def consoleFixedEnvironment (props : ConsoleServiceProps) : List (String × String) :=
  [("MODE", "api"),
   ("CONSOLE_WEB_URL", props.alb.url),
   ("CONSOLE_API_URL", props.alb.url),
   ("SERVICE_API_URL", props.alb.url),
   ("APP_WEB_URL", props.alb.url),
   ("SQLALCHEMY_POOL_PRE_PING", "True"),
   ("REDIS_HOST", props.redis.endpoint),
   ("REDIS_PORT", toString props.redis.port),
   ("REDIS_USE_SSL", "true"),
   ("REDIS_DB", "0"),
   ("WEB_API_CORS_ALLOW_ORIGINS", "*"),
   ("CONSOLE_CORS_ALLOW_ORIGINS", "*"),
   ("STORAGE_TYPE", "s3"),
   ("S3_BUCKET_NAME", props.storageBucket.bucketName),
   ("S3_REGION", props.storageBucket.region),
   ("S3_USE_AWS_MANAGED_IAM", "true"),
   ("DB_DATABASE", props.postgres.databaseName),
   ("VECTOR_STORE", "pgvector"),
   ("PGVECTOR_DATABASE", props.postgres.pgVectorDatabaseName),
   ("CODE_EXECUTION_ENDPOINT", "http://localhost:8194")]

/-- The fixed secrets entries of the console Main container (the object literal
before the spread of the additional secret variables). -/
def consoleFixedSecrets (props : ConsoleServiceProps) : List (String × VarValue) :=
  [("DB_USERNAME", VarValue.secret (EcsSecret.fromSecretsManager props.postgres.secret (some "username"))),
   ("DB_HOST", VarValue.secret (EcsSecret.fromSecretsManager props.postgres.secret (some "host"))),
   ("DB_PORT", VarValue.secret (EcsSecret.fromSecretsManager props.postgres.secret (some "port"))),
   ("DB_PASSWORD", VarValue.secret (EcsSecret.fromSecretsManager props.postgres.secret (some "password"))),
   ("PGVECTOR_USER", VarValue.secret (EcsSecret.fromSecretsManager props.postgres.secret (some "username"))),
   ("PGVECTOR_HOST", VarValue.secret (EcsSecret.fromSecretsManager props.postgres.secret (some "host"))),
   ("PGVECTOR_PORT", VarValue.secret (EcsSecret.fromSecretsManager props.postgres.secret (some "port"))),
   ("PGVECTOR_PASSWORD", VarValue.secret (EcsSecret.fromSecretsManager props.postgres.secret (some "password"))),
   ("REDIS_PASSWORD", VarValue.secret (EcsSecret.fromSecretsManager props.redis.secret none)),
   ("CELERY_BROKER_URL", VarValue.secret (EcsSecret.fromSsmParameter props.redis.brokerUrl))]

/-- The `ConsoleService` constructor, translated line by line from the source.
The two `getAdditional*Variables` helpers are spec-modelled (their file is not
among the provided sources); they are spread last into the respective object
literals exactly as in the source. -/
def consoleService (props : ConsoleServiceProps) : ConsoleServiceResult :=
  let mainContainer : ContainerDef :=
    { name := "Main"
      image :=
        match props.customRepository with
        | some repo => ContainerImage.fromEcrRepository repo ("dify-api_" ++ props.imageTag)
        | none => ContainerImage.fromRegistry ("langgenius/dify-api:" ++ props.imageTag)
      environment :=
        objSpread (consoleFixedEnvironment props)
          (getAdditionalEnvironmentVariables props.additionalEnvironmentVariables)
      secrets :=
        objSpread (consoleFixedSecrets props)
          (getAdditionalSecretVariables props.additionalEnvironmentVariables)
      entryPoint := some ["tail"]
      command := some ["-f", "/dev/null"] }
  { taskDefinition :=
      { cpu := 1024
        memoryLimitMiB := 2048
        cpuArchitecture := "X86_64"
        containers := [mainContainer] }
    generatedSecrets := []
    bucketGrants := [S3Grant.readWrite "taskRole"]
    taskRolePolicies :=
      [{ actions :=
           ["bedrock:InvokeModel", "bedrock:InvokeModelWithResponseStream",
            "bedrock:Rerank", "bedrock:Retrieve", "bedrock:RetrieveAndGenerate"]
         resources := ["*"] }]
    service :=
      { capacityProviderStrategies := [("FARGATE", 1), ("FARGATE_SPOT", 0)]
        enableExecuteCommand := true
        minHealthyPercent := some 0
        desiredCount := some 0 }
    networkRules :=
      [NetworkRule.allowDefaultPortFrom "postgres", NetworkRule.allowDefaultPortFrom "redis"]
    albRules := [] }

/-- Used when a container name is not found; never reached on the names this
file looks up. -/
def emptyContainer : ContainerDef :=
  { name := "", image := ContainerImage.fromRegistry "" }

/-- The container of a task definition with the given name. -/
def containerNamed (t : TaskDef) (n : String) : ContainerDef :=
  (t.containers.find? (fun c => c.name == n)).getD emptyContainer

/-- `true` exactly when the value references the generated `EncryptionSecret`
(whole-secret reference, as all reuse sites in the source are). -/
def refsGeneratedSecret : VarValue → Bool
  | VarValue.literal _ => false
  | VarValue.secret (EcsSecret.fromSsmParameter _) => false
  | VarValue.secret (EcsSecret.fromSecretsManager _ (some _)) => false
  | VarValue.secret (EcsSecret.fromSecretsManager s none) => s == encryptionSecret

/-- The keys of a container's secrets map whose value references the generated
`EncryptionSecret`. -/
def generatedSecretSlots (c : ContainerDef) : List String :=
  (c.secrets.filter (fun kv => refsGeneratedSecret kv.2)).map Prod.fst

/-- The primary service creates exactly one secret, and the slots seeded from
it are: four on the serving container, two on the worker, one on the sandbox,
four on the plugin daemon, none elsewhere. -/
def sharedGeneratedSecretProp (p : ApiServiceProps) : Prop :=
  (apiService p).generatedSecrets = [encryptionSecret]
  ∧ generatedSecretSlots (containerNamed (apiService p).taskDefinition "Main")
      = ["SECRET_KEY", "CODE_EXECUTION_API_KEY", "INNER_API_KEY_FOR_PLUGIN", "PLUGIN_API_KEY"]
  ∧ generatedSecretSlots (containerNamed (apiService p).taskDefinition "Worker")
      = ["SECRET_KEY", "PLUGIN_API_KEY"]
  ∧ generatedSecretSlots (containerNamed (apiService p).taskDefinition "Sandbox")
      = ["API_KEY"]
  ∧ generatedSecretSlots (containerNamed (apiService p).taskDefinition "PluginDaemon")
      = ["SECRET_KEY", "CODE_EXECUTION_API_KEY", "DIFY_INNER_API_KEY", "SERVER_KEY"]
  ∧ generatedSecretSlots (containerNamed (apiService p).taskDefinition "SandboxFileMount") = []
  ∧ generatedSecretSlots (containerNamed (apiService p).taskDefinition "ExternalKnowledgeBaseAPI") = []

/-- A secret passed in from another scope (no password generation here). -/
def extSecret (n : String) : SecretObj := { name := n }

def pg0 : Postgres :=
  { databaseName := "dify", pgVectorDatabaseName := "difypgvector", secret := extSecret "PostgresSecret" }

def redis0 : Redis :=
  { endpoint := "redis.internal", port := 6379, secret := extSecret "RedisSecret",
    brokerUrl := "/dify/broker-url" }

def bucket0 : Bucket := { bucketName := "dify-storage", region := "us-east-1" }

def alb0 : Alb := { url := "https://dify.example.com" }

/-- A concrete props record for the primary service. -/
def p0 : ApiServiceProps :=
  { cluster := "Cluster", alb := alb0, postgres := pg0, redis := redis0,
    storageBucket := bucket0, imageTag := "1.4.2", sandboxImageTag := "0.2.12",
    allowAnySyscalls := false }

/-- A concrete props record for the console service with no overrides. -/
def cq0 : ConsoleServiceProps :=
  { cluster := "Cluster", alb := alb0, postgres := pg0, redis := redis0,
    storageBucket := bucket0, imageTag := "1.4.2",
    additionalEnvironmentVariables := {} }

/-- A concrete props record for the console service carrying one environment
override (a key also in the fixed set) and one extra secret variable. -/
def cq1 : ConsoleServiceProps :=
  { cq0 with
    additionalEnvironmentVariables :=
      { envVars := [("MODE", "worker")],
        secretVars := [("EXTRA_KEY", EcsSecret.fromSsmParameter "/dify/extra")] } }

/-- The Bedrock actions granted by the primary service assembler. -/
def bedrockBaseActions : List String :=
  ["bedrock:InvokeModel", "bedrock:InvokeModelWithResponseStream",
   "bedrock:Rerank", "bedrock:Retrieve"]

theorem objInsert_forall {α : Type} (P : α → Prop) (k : String) (v : α) (hv : P v) :
    ∀ (m : List (String × α)), (∀ e ∈ m, P e.2) → ∀ e ∈ objInsert m k v, P e.2 := by
  intro m
  induction m with
  | nil =>
    intro _ e he
    simp only [objInsert, List.mem_singleton] at he
    subst he
    exact hv
  | cons e1 rest ih =>
    intro hm e he
    by_cases h : e1.1 = k
    · simp only [objInsert, if_pos h] at he
      rcases List.mem_cons.mp he with h1 | h1
      · subst h1; exact hv
      · exact hm _ (List.mem_cons_of_mem _ h1)
    · simp only [objInsert, if_neg h] at he
      rcases List.mem_cons.mp he with h1 | h1
      · subst h1; exact hm _ (List.mem_cons_self _ _)
      · exact ih (fun e2 he2 => hm e2 (List.mem_cons_of_mem _ he2)) e h1

theorem objSpread_forall {α : Type} (P : α → Prop) :
    ∀ (add m : List (String × α)), (∀ e ∈ m, P e.2) → (∀ e ∈ add, P e.2) →
      ∀ e ∈ objSpread m add, P e.2 := by
  intro add
  induction add with
  | nil => intro m hm _ e he; exact hm e he
  | cons a rest ih =>
    intro m hm ha e he
    exact ih (objInsert m a.1 a.2)
      (objInsert_forall P a.1 a.2 (ha a (List.mem_cons_self _ _)) m hm)
      (fun e2 he2 => ha e2 (List.mem_cons_of_mem _ he2)) e he

theorem lookup_objInsert_self {α : Type} (k : String) (v : α) :
    ∀ (m : List (String × α)), (objInsert m k v).lookup k = some v := by
  intro m
  induction m with
  | nil => simp [objInsert]
  | cons e rest ih =>
    by_cases h : e.1 = k
    · simp [objInsert, if_pos h]
    · obtain ⟨k1, v1⟩ := e
      simp only at h
      have hne : (k == k1) = false := by
        exact beq_eq_false_iff_ne.mpr (fun hc => h hc.symm)
      simp [objInsert, if_neg h, List.lookup_cons, hne, ih]

theorem lookup_objInsert_ne {α : Type} (k q : String) (v : α) (h : q ≠ k) :
    ∀ (m : List (String × α)), (objInsert m k v).lookup q = m.lookup q := by
  intro m
  have hqk : (q == k) = false := beq_eq_false_iff_ne.mpr h
  induction m with
  | nil => simp [objInsert, List.lookup_cons, hqk]
  | cons e rest ih =>
    by_cases h1 : e.1 = k
    · obtain ⟨k1, v1⟩ := e
      simp only at h1
      subst h1
      simp [objInsert, List.lookup_cons, hqk]
    · obtain ⟨k1, v1⟩ := e
      simp only at h1
      simp only [objInsert, if_neg h1]
      by_cases h2 : q = k1
      · subst h2; simp [List.lookup_cons]
      · have hq1 : (q == k1) = false := beq_eq_false_iff_ne.mpr h2
        simp [List.lookup_cons, hq1, ih]

theorem lookup_objSpread_not_mem {α : Type} (k : String) :
    ∀ (add m : List (String × α)), k ∉ add.map Prod.fst →
      (objSpread m add).lookup k = m.lookup k := by
  intro add
  induction add with
  | nil => intro m _; rfl
  | cons a rest ih =>
    intro m hk
    simp only [List.map_cons, List.mem_cons] at hk
    push_neg at hk
    have step : objSpread m (a :: rest) = objSpread (objInsert m a.1 a.2) rest := rfl
    rw [step, ih (objInsert m a.1 a.2) hk.2, lookup_objInsert_ne a.1 k a.2 hk.1]

theorem lookup_objSpread_mem {α : Type} (k : String) (v : α) :
    ∀ (add m : List (String × α)), (add.map Prod.fst).Nodup → (k, v) ∈ add →
      (objSpread m add).lookup k = some v := by
  intro add
  induction add with
  | nil => intro m _ hmem; cases hmem
  | cons a rest ih =>
    obtain ⟨ak, av⟩ := a
    intro m hnd hmem
    rw [List.map_cons] at hnd
    have hnd2 := List.nodup_cons.mp hnd
    have step : objSpread m ((ak, av) :: rest) = objSpread (objInsert m ak av) rest := rfl
    rcases List.mem_cons.mp hmem with h1 | h1
    · injection h1 with hk hv
      subst hk
      subst hv
      rw [step, lookup_objSpread_not_mem k rest (objInsert m k v) hnd2.1,
        lookup_objInsert_self k v m]
    · rw [step]
      exact ih (objInsert m ak av) hnd2.2 h1

/-- The `ALLOWED_SYSCALLS` value built in the source
(`Array(457).fill(0).map((_, i) => i)`) enumerates `0, …, 456`. -/
theorem replicate_mapIdx_eq_range (n : Nat) :
    (List.replicate n (0 : Nat)).mapIdx (fun i _ => i) = List.range n := by
  induction n with
  | zero => rfl
  | succ k ih =>
    rw [List.replicate_succ' k 0, List.mapIdx_append_one, ih, List.length_replicate,
      List.range_succ]

theorem allowedSyscallsValue_eq_range :
    allowedSyscallsValue
      = String.intercalate "," ((List.range 457).map (fun n => toString n)) := by
  rw [allowedSyscallsValue, replicate_mapIdx_eq_range]

/-- C1: the sandbox executor container's environment contains
`ALLOWED_SYSCALLS` exactly when `allowAnySyscalls` is true, and then its value
is the comma-joined list of the integers `0, …, 456` (that is, every integer
from 0 up to but not including 457), which `List.range` lists in increasing
order; when the flag is false the variable is absent from the environment. -/
theorem sandbox_allowed_syscalls (p : ApiServiceProps) :
    ((containerNamed (apiService p).taskDefinition "Sandbox").environment).lookup
        "ALLOWED_SYSCALLS"
      = (if p.allowAnySyscalls
          then some (String.intercalate "," ((List.range 457).map (fun n => toString n)))
          else none)
    ∧ (((containerNamed (apiService p).taskDefinition "Sandbox").environment).map
        Prod.fst).contains "ALLOWED_SYSCALLS" = p.allowAnySyscalls
    ∧ List.Pairwise (fun a b => a < b) (List.range 457) := by
  refine ⟨?_, ?_, List.pairwise_lt_range 457⟩
  · cases h : p.allowAnySyscalls <;>
      simp [apiService, containerNamed, h, allowedSyscallsValue_eq_range, List.lookup]
  · cases h : p.allowAnySyscalls <;>
      simp [apiService, containerNamed, h]

/-- C2: in every task definition the primary assembler produces, the sandbox
executor container declares exactly one startup dependency; it targets the
`SandboxFileMount` initializer container (which exists in the task definition)
with the `COMPLETE` (run-to-completion) condition, which is a different
condition from `HEALTHY` and from `START`. -/
theorem sandbox_depends_on_initializer_complete (p : ApiServiceProps) :
    (containerNamed (apiService p).taskDefinition "Sandbox").containerDependencies
      = [{ container := "SandboxFileMount",
           condition := ContainerDependencyCondition.COMPLETE }]
    ∧ (containerNamed (apiService p).taskDefinition "SandboxFileMount").name
      = "SandboxFileMount"
    ∧ (ContainerDependencyCondition.COMPLETE == ContainerDependencyCondition.HEALTHY)
      = false
    ∧ (ContainerDependencyCondition.COMPLETE == ContainerDependencyCondition.START)
      = false :=
  ⟨rfl, rfl, rfl, rfl⟩

/-- C3 counterexample: at concrete props the console service's task-role policy
contains the Bedrock action `bedrock:RetrieveAndGenerate` while the primary
service's does not, so the two action sets are not the same. -/
theorem console_extra_bedrock_action :
    (((consoleService cq0).taskRolePolicies.map PolicyStatement.actions).flatten.contains
        "bedrock:RetrieveAndGenerate") = true
    ∧ (((apiService p0).taskRolePolicies.map PolicyStatement.actions).flatten.contains
        "bedrock:RetrieveAndGenerate") = false :=
  ⟨rfl, rfl⟩

/-- C3 (amended): the console assembler grants its task role the same
object-storage grant (read/write on the shared bucket) as the primary assembler
and a strict superset of its Bedrock actions — the primary's four actions plus
`bedrock:RetrieveAndGenerate` — and opens inbound access from the console
service to the database's and the cache's default ports. -/
theorem console_grants_superset (p : ApiServiceProps) (q : ConsoleServiceProps) :
    (consoleService q).bucketGrants = (apiService p).bucketGrants
    ∧ (apiService p).taskRolePolicies
      = [{ actions := bedrockBaseActions, resources := ["*"] }]
    ∧ (consoleService q).taskRolePolicies
      = [{ actions := bedrockBaseActions ++ ["bedrock:RetrieveAndGenerate"],
           resources := ["*"] }]
    ∧ (consoleService q).networkRules
      = [NetworkRule.allowDefaultPortFrom "postgres",
         NetworkRule.allowDefaultPortFrom "redis"] :=
  ⟨rfl, rfl, rfl, rfl⟩

/-- C4: the primary assembler registers exactly one routing rule, on the
serving container's port 5001 with health-check path `/health`, and its path
list is exactly each fixed prefix together with its wildcard-suffixed form. -/
theorem api_routing_paths_exact (p : ApiServiceProps) :
    (apiService p).albRules
      = [{ id := "Api", port := 5001, healthCheckPath := "/health",
           paths := ["/console/api", "/api", "/v1", "/files",
                     "/console/api/*", "/api/*", "/v1/*", "/files/*"] }]
    ∧ (containerNamed (apiService p).taskDefinition "Main").portMappings
      = [{ containerPort := 5001 }] :=
  ⟨rfl, rfl⟩

/-- C5: the console service is created with desired count zero while the
primary service omits the desired-count property; the console's single
container has no port mappings and the console assembler registers no routing
rules. -/
theorem console_desired_count_zero (p : ApiServiceProps) (q : ConsoleServiceProps) :
    (consoleService q).service.desiredCount = some 0
    ∧ (apiService p).service.desiredCount = none
    ∧ ((consoleService q).taskDefinition.containers.map
        (fun c => (c.name, c.portMappings))) = [("Main", [])]
    ∧ (consoleService q).albRules = [] :=
  ⟨rfl, rfl, rfl, rfl⟩

/-- Spelling out `List.all` on a container's secrets map as a membership
statement. -/
theorem secrets_all_refs (c : ContainerDef)
    (h : (c.secrets.all (fun kv => isSecretRef kv.2)) = true) :
    ∀ kv ∈ c.secrets, isSecretRef kv.2 = true :=
  fun kv hkv => List.all_eq_true.mp h kv hkv

/-- C6: in every container definition produced by either assembler, every value
in the secrets map is a secret-reference object, never a literal string. -/
theorem all_secret_values_are_references (p : ApiServiceProps) (q : ConsoleServiceProps) :
    (∀ c ∈ (apiService p).taskDefinition.containers,
      ∀ kv ∈ c.secrets, isSecretRef kv.2 = true)
    ∧ (∀ c ∈ (consoleService q).taskDefinition.containers,
      ∀ kv ∈ c.secrets, isSecretRef kv.2 = true) := by
  constructor
  · intro c hc
    simp only [apiService, List.mem_cons, List.not_mem_nil, or_false] at hc
    rcases hc with rfl | rfl | rfl | rfl | rfl | rfl <;>
      exact secrets_all_refs _ rfl
  · intro c hc
    simp only [consoleService, List.mem_cons, List.not_mem_nil, or_false] at hc
    subst hc
    intro kv hkv
    refine objSpread_forall (fun v => isSecretRef v = true)
      (getAdditionalSecretVariables q.additionalEnvironmentVariables)
      (consoleFixedSecrets q) ?_ ?_ kv hkv
    · exact List.all_eq_true.mp rfl
    · intro e he
      simp only [getAdditionalSecretVariables, List.mem_map] at he
      obtain ⟨a, _, rfl⟩ := he
      rfl

/-- C6 witness: the theorem applied to the `DB_USERNAME` entry of the primary
service's Main container at concrete props. -/
theorem all_secret_values_are_references_witness :
    isSecretRef (VarValue.secret
      (EcsSecret.fromSecretsManager (extSecret "PostgresSecret") (some "username"))) = true :=
  (all_secret_values_are_references p0 cq0).1
    (containerNamed (apiService p0).taskDefinition "Main") (by decide)
    ("DB_USERNAME", VarValue.secret
      (EcsSecret.fromSecretsManager (extSecret "PostgresSecret") (some "username")))
    (by decide)

/-- C7: the primary assembler generates exactly one secret, and the secrets-map
slots referencing it are exactly `SECRET_KEY`, `CODE_EXECUTION_API_KEY`,
`INNER_API_KEY_FOR_PLUGIN` and `PLUGIN_API_KEY` on the serving container,
`SECRET_KEY` and `PLUGIN_API_KEY` on the worker, `API_KEY` on the sandbox and
`SECRET_KEY`, `CODE_EXECUTION_API_KEY`, `DIFY_INNER_API_KEY` and `SERVER_KEY`
on the plugin daemon (the hypothesis says the externally supplied cache secret
is not the secret generated here, which holds for any real deployment since
they are distinct constructs). -/
theorem single_generated_secret_shared (p : ApiServiceProps)
    (hr : (p.redis.secret == encryptionSecret) = false) :
    sharedGeneratedSecretProp p := by
  unfold sharedGeneratedSecretProp
  refine ⟨rfl, ?_, ?_, ?_, ?_, rfl, rfl⟩ <;>
  · simp only [apiService, containerNamed, generatedSecretSlots, refsGeneratedSecret,
      List.filter, hr, List.find?, beq_self_eq_true]
    decide

/-- C7 witness: the theorem instantiated at concrete props. -/
theorem single_generated_secret_shared_witness :
    ((p0.redis.secret == encryptionSecret) = false) ∧ sharedGeneratedSecretProp p0 :=
  ⟨by decide, single_generated_secret_shared p0 (by decide)⟩

/-- C8 counterexample: the primary assembler's props interface has no
`additionalEnvironmentVariables` field while the console's does, so it is false
that both assemblers accept an open-ended override map. -/
theorem api_props_lack_override_map :
    apiServicePropsFields.contains "additionalEnvironmentVariables" = false
    ∧ consoleServicePropsFields.contains "additionalEnvironmentVariables" = true :=
  ⟨rfl, rfl⟩

/-- C8 (amended): only the console assembler accepts the open-ended map of
additional environment and secret variables (the primary's props carry no such
field), and it merges the map into the Main container's environment and secrets
with override-wins-on-conflict semantics: any key of the caller-supplied map
resolves to the caller-supplied value in the resulting container definition. -/
theorem console_override_wins :
    apiServicePropsFields.contains "additionalEnvironmentVariables" = false
    ∧ consoleServicePropsFields.contains "additionalEnvironmentVariables" = true
    ∧ (∀ (q : ConsoleServiceProps) (k v : String),
        (q.additionalEnvironmentVariables.envVars.map Prod.fst).Nodup →
        (k, v) ∈ q.additionalEnvironmentVariables.envVars →
        ((containerNamed (consoleService q).taskDefinition "Main").environment).lookup k
          = some v)
    ∧ (∀ (q : ConsoleServiceProps) (k : String) (r : EcsSecret),
        (q.additionalEnvironmentVariables.secretVars.map Prod.fst).Nodup →
        (k, r) ∈ q.additionalEnvironmentVariables.secretVars →
        ((containerNamed (consoleService q).taskDefinition "Main").secrets).lookup k
          = some (VarValue.secret r)) := by
  refine ⟨rfl, rfl, ?_, ?_⟩
  · intro q k v hnd hmem
    exact lookup_objSpread_mem k v
      (getAdditionalEnvironmentVariables q.additionalEnvironmentVariables)
      (consoleFixedEnvironment q) hnd hmem
  · intro q k r hnd hmem
    have hnd2 : ((getAdditionalSecretVariables q.additionalEnvironmentVariables).map
        Prod.fst).Nodup := by
      simpa [getAdditionalSecretVariables, List.map_map, Function.comp] using hnd
    have hmem2 : (k, VarValue.secret r)
        ∈ getAdditionalSecretVariables q.additionalEnvironmentVariables :=
      List.mem_map.mpr ⟨(k, r), hmem, rfl⟩
    exact lookup_objSpread_mem k (VarValue.secret r)
      (getAdditionalSecretVariables q.additionalEnvironmentVariables)
      (consoleFixedSecrets q) hnd2 hmem2

/-- C8 witness: at concrete props whose override map resets `MODE` (a key of
the fixed set) and adds one secret variable, the resulting container carries
the caller-supplied values. -/
theorem console_override_wins_witness :
    ((containerNamed (consoleService cq1).taskDefinition "Main").environment).lookup "MODE"
      = some "worker"
    ∧ ((containerNamed (consoleService cq1).taskDefinition "Main").secrets).lookup "EXTRA_KEY"
      = some (VarValue.secret (EcsSecret.fromSsmParameter "/dify/extra")) :=
  ⟨console_override_wins.2.2.1 cq1 "MODE" "worker" (by decide) (by decide),
   console_override_wins.2.2.2 cq1 "EXTRA_KEY" (EcsSecret.fromSsmParameter "/dify/extra")
     (by decide) (by decide)⟩

/-- C9: the primary service weights FARGATE 0 and FARGATE_SPOT 1; the console
service weights FARGATE 1 and FARGATE_SPOT 0. -/
theorem capacity_weights (p : ApiServiceProps) (q : ConsoleServiceProps) :
    (apiService p).service.capacityProviderStrategies
      = [("FARGATE", 0), ("FARGATE_SPOT", 1)]
    ∧ (consoleService q).service.capacityProviderStrategies
      = [("FARGATE", 1), ("FARGATE_SPOT", 0)] :=
  ⟨rfl, rfl⟩

/-- C10: the sandbox initializer mounts the shared `sandbox` volume read-write
at `/dependencies` and is non-essential, while the sandbox executor mounts the
same volume read-only at the same path; the task declares that volume. -/
theorem sandbox_volume_mount_modes (p : ApiServiceProps) :
    (containerNamed (apiService p).taskDefinition "SandboxFileMount").mountPoints
      = [{ containerPath := "/dependencies", sourceVolume := "sandbox", readOnly := false }]
    ∧ (containerNamed (apiService p).taskDefinition "SandboxFileMount").essential = false
    ∧ (containerNamed (apiService p).taskDefinition "Sandbox").mountPoints
      = [{ containerPath := "/dependencies", sourceVolume := "sandbox", readOnly := true }]
    ∧ (apiService p).taskDefinition.volumes = ["sandbox"] :=
  ⟨rfl, rfl, rfl, rfl⟩
